import Mathlib

/-!
Verification of the remix.infonomic.io application excerpt: the root
document shell and its loader, the error / catch boundaries, the
notes-creation action, the protected theme route loader, and the two
pure helpers `safeRedirect` and `isBusy` from `app/utils.ts`.

The TypeScript sources are shallowly embedded: JavaScript strings become
`String`, `null`/`undefined` become `Option`, thrown redirects become
`Except`, and the JSX trees produced by the React components become a
small `Html` inductive.  External collaborators that are not part of the
excerpt (`session.server`, `theme.server`, the zod schema, the theme
provider) are modelled from the specification's contracts and are marked
as such in their doc comments.
-/

namespace Remix

/-- A JavaScript `FormDataEntryValue`: either a string or a `File`
object (embedded as an opaque tag, since only `typeof v === 'string'`
is ever inspected). -/
inductive FormValue where
  | str (s : String)
  | file
  deriving DecidableEq, Repr

/-- Character-list prefix test: `chPre p cs` is true when `p` is an
initial segment of `cs`.  Used to embed JavaScript's
`String.prototype.startsWith`. -/
def chPre : List Char → List Char → Bool
  | [], _ => true
  | _ :: _, [] => false
  | c :: p, d :: cs => c = d && chPre p cs

/-- JavaScript `s.startsWith(p)`, embedded over the character lists of
the two strings. -/
def sStarts (s p : String) : Bool :=
  chPre p.data s.data

/-- `safeRedirect` from `app/utils.ts` (lines 18-32).  The first
argument models `to : FormDataEntryValue | string | null | undefined`:
`none` covers both `null` and `undefined`.  JavaScript's `!to` is true
for `null`, `undefined` and the empty string, and `typeof to !==
'string'` rejects `File` values. -/
def safeRedirect (dest : Option FormValue) (defaultRedirect : String := "/") : String :=
  match dest with
  | none => defaultRedirect
  | some FormValue.file => defaultRedirect
  | some (FormValue.str s) =>
      if s = "" then defaultRedirect
      else if !(sStarts s "/") || sStarts s "//" then defaultRedirect
      else s

/-- The `state` field of a Remix `Transition`. -/
inductive TransitionState where
  | idle
  | submitting
  | loading
  deriving DecidableEq, Repr

/-- A Remix `Transition` as far as `isBusy` inspects it: its `state`
and its `type` discriminator string. -/
structure Transition where
  state : TransitionState
  type : String
  deriving DecidableEq, Repr

/-- `isBusy` from `app/utils.ts` (lines 85-96).  The object literal
`loading = { actionRedirect: true, actionReload: true }` is indexed by
`transition.type`, so a `loading`-state transition whose type is not
one of those two keys yields JavaScript `undefined`, embedded as
`none`.  The result type is therefore `Option Bool`, not `Bool`. -/
def isBusy (transition : Transition) : Option Bool :=
  match transition.state with
  | TransitionState.submitting => some true
  | TransitionState.loading =>
      if transition.type = "actionRedirect" ∨ transition.type = "actionReload" then
        some true
      else
        none
  | TransitionState.idle => some false

/-! ## HTML trees produced by the React components -/

/-- A rendered JSX tree: either an element with a tag name, an
attribute list and children, or a text node.  Framework components
(`Meta`, `Links`, `Scripts`, `ScrollRestoration`, `LiveReload`,
`NonFlashOfWrongThemeEls`, `ErrorLayout`) are embedded as elements
whose tag is the component name. -/
inductive Html where
  | element (tag : String) (attrs : List (String × String)) (children : List Html)
  | text (s : String)
  deriving Repr

mutual

/-- Pre-order list of the tag names occurring in a tree. -/
def Html.tags : Html → List String
  | Html.text _ => []
  | Html.element t _ cs => t :: Html.tagsList cs

/-- Tag names of a list of trees, in order. -/
def Html.tagsList : List Html → List String
  | [] => []
  | c :: cs => Html.tags c ++ Html.tagsList cs

end

mutual

/-- All text-node contents occurring in a tree, in order. -/
def Html.texts : Html → List String
  | Html.text s => [s]
  | Html.element _ _ cs => Html.textsList cs

/-- Text-node contents of a list of trees, in order. -/
def Html.textsList : List Html → List String
  | [] => []
  | c :: cs => Html.texts c ++ Html.textsList cs

end

/-- Look up an attribute of the root element of a tree. -/
def Html.attr (h : Html) (k : String) : Option String :=
  match h with
  | Html.text _ => none
  | Html.element _ attrs _ => (attrs.find? (fun a => a.1 = k)).map Prod.snd

mutual

/-- The `dangerouslySetInnerHTML` payloads of the `script` elements in a
tree (the only inline scripts the shell emits). -/
def Html.inlineScripts : Html → List String
  | Html.text _ => []
  | Html.element t attrs cs =>
      (if t = "script" then
        ((attrs.find? (fun a => a.1 = "dangerouslySetInnerHTML")).map Prod.snd).toList
       else []) ++ Html.inlineScriptsList cs

/-- Inline script payloads of a list of trees, in order. -/
def Html.inlineScriptsList : List Html → List String
  | [] => []
  | c :: cs => Html.inlineScripts c ++ Html.inlineScriptsList cs

end

/-! ## Theme and session model -/

/-- The theme enumeration from the theme provider: `light` or `dark`
(`null` is embedded as `none` at use sites). -/
inductive Theme where
  | light
  | dark
  deriving DecidableEq, Repr

/-- The class string contributed by a theme value: `cx(t.theme)` yields
the theme name, or the empty class when the theme is `null`. -/
def themeClass : Option Theme → String
  | some Theme.light => "light"
  | some Theme.dark => "dark"
  | none => ""

/-- A domain user, as far as this excerpt reads it. -/
structure User where
  id : String
  email : String
  deriving DecidableEq, Repr

/-- Modelled from the spec: the session store behind
`getSession`/`commitSession`/`getThemeSession` (external collaborators
`session.server` / `theme.server`).  It carries the theme enum, the
optional user id, and the transient flash messages. -/
structure Session where
  userId : Option String
  theme : Option Theme
  flashMessages : List (String × String)
  deriving DecidableEq, Repr

/-- Modelled from the spec: `session.flash(key, value)` records a
one-time message in the session. -/
def Session.flash (s : Session) (k v : String) : Session :=
  { s with flashMessages := s.flashMessages ++ [(k, v)] }

/-- Modelled from the spec: `commitSession` serializes the (possibly
mutated) session into a signed cookie string for a `Set-Cookie`
header. -/
def commitSession (s : Session) : String :=
  "__session=" ++ (match s.userId with | some u => u | none => "") ++
    ";theme=" ++ themeClass s.theme ++
    ";flash=" ++ String.intercalate ";" (s.flashMessages.map (fun kv => kv.1 ++ "=" ++ kv.2))

/-- A redirect-class result thrown by `requireUserId` for an
unauthenticated request. -/
inductive Redirection where
  | toLogin
  deriving DecidableEq, Repr

/-- Modelled from the spec: `requireUserId(request) -> string`
(external collaborator `session.server`): resolves to the session's
user id, and throws a redirect-to-login result when it is absent. -/
def requireUserId (session : Session) : Except Redirection String :=
  match session.userId with
  | some uid => Except.ok uid
  | none => Except.error Redirection.toLogin

/-! ## The root loader (`src/unnamed/part_000`, lines 66-79) -/

/-- The root loader's serialized payload (`LoaderData`): theme, user,
and the client-visible `ENV` map.  `ENV` is a keyed list whose values
are `Option String` because `process.env` lookups may be undefined. -/
structure LoaderData where
  theme : Option Theme
  user : Option User
  ENV : List (String × Option String)
  deriving DecidableEq, Repr

/-- The root `loader` (lines 66-79): reads the theme session and the
user (both external collaborators, passed in as the resolved values),
and assembles the payload, exposing exactly the two reCAPTCHA flags
read from `process.env` (embedded as the lookup function `env`). -/
def rootLoader (env : String → Option String) (sessionTheme : Option Theme)
    (user : Option User) : LoaderData :=
  { theme := sessionTheme
    user := user
    ENV := [("RECAPTCHA_ENABLED", env "RECAPTCHA_ENABLED"),
            ("RECAPTCHA_SITE_KEY", env "RECAPTCHA_SITE_KEY")] }

/-- A JSON string literal (the ENV values are opaque flags; escaping is
not needed for the modelled payloads). -/
def jsonStr (s : String) : String :=
  "\"" ++ s ++ "\""

/-- `JSON.stringify` of the ENV object: keys with `undefined` values
are omitted, as JavaScript's serializer does. -/
def serializeEnv (env : List (String × Option String)) : String :=
  "\x7b" ++
    String.intercalate ","
      (env.filterMap (fun kv => kv.2.map (fun v => jsonStr kv.1 ++ ":" ++ jsonStr v))) ++
  "\x7d"

/-! ## The document shells (`src/unnamed/part_000`, lines 81-155) -/

/-- The optional `<title>` element of a document head. -/
def titleElems : Option String → List Html
  | some t => [Html.element "title" [] [Html.text t]]
  | none => []

/-- The static meta/link elements of the main document head
(lines 88-102). -/
def documentHeadMeta : List Html :=
  [Html.element "meta" [("charSet", "utf-8")] [],
   Html.element "meta" [("name", "viewport"), ("content", "width=device-width,initial-scale=1")] [],
   Html.element "meta" [("name", "theme-color"), ("content", "#f59e0b")] [],
   Html.element "meta" [("name", "description"), ("content", "A Remix demo app with Radix UI, headless UI and Tailwind CSS.")] [],
   Html.element "meta" [("name", "msapplication-TileColor"), ("content", "#f59e0b")] [],
   Html.element "link" [("rel", "apple-touch-icon"), ("href", "/apple-touch-icon.png?v=10")] [],
   Html.element "link" [("rel", "icon"), ("href", "/favicon-96x96.png?v=10")] [],
   Html.element "link" [("rel", "icon"), ("href", "/favicon-48x48.png?v=10")] [],
   Html.element "link" [("rel", "icon"), ("href", "/favicon-32x32.png?v=10")] [],
   Html.element "link" [("rel", "icon"), ("href", "/favicon-16x16.png?v=10")] [],
   Html.element "link" [("rel", "icon"), ("href", "/favicon.ico?v=10")] [],
   Html.element "link" [("rel", "manifest"), ("href", "/manifest.webmanifest?v=10")] [],
   Html.element "link" [("rel", "mask-icon"), ("href", "/safari-pinned-tab.svg?v=10")] [],
   Html.element "link" [("rel", "icon"), ("href", "/favicon.ico?v=10")] []]

/-- `true`/`false` rendering of a JavaScript boolean prop. -/
def boolStr (b : Bool) : String :=
  if b then "true" else "false"

/-- The `<head>` of the main `Document` (lines 87-108): static
meta/links, the theme provider's `NonFlashOfWrongThemeEls` (with
`ssrTheme = Boolean(data.theme)`), the optional title, and the
framework `Meta`/`Links` outlets. -/
def documentHead (theme : Option Theme) (title : Option String) : Html :=
  Html.element "head" []
    (documentHeadMeta ++
     [Html.element "NonFlashOfWrongThemeEls" [("ssrTheme", boolStr theme.isSome)] []] ++
     titleElems title ++
     [Html.element "Meta" [] [], Html.element "Links" [] []])

/-- The `<body>` of the main `Document` (lines 109-119): the page
children, `ScrollRestoration`, the inline `window.ENV` script, the
framework `Scripts`, and `LiveReload`. -/
def documentBody (ENV : List (String × Option String)) (children : List Html) : Html :=
  Html.element "body"
    [("class", "bg-white selection:bg-amber-400 dark:bg-gray-900 dark:selection:text-black")]
    (children ++
     [Html.element "ScrollRestoration" [] [],
      Html.element "script"
        [("dangerouslySetInnerHTML", "window.ENV = " ++ serializeEnv ENV)] [],
      Html.element "Scripts" [] [],
      Html.element "LiveReload" [] []])

/-- The main `Document` component (lines 81-122).  `theme` is the value
`useTheme()` yields, which — modelled from the spec's theme-provider
contract — is the loader payload's theme passed to `ThemeProvider` by
`App`; `ENV` is the loader payload's `ENV`.  The root `html` element
carries `class = cx(t.theme)`. -/
def Document (theme : Option Theme) (ENV : List (String × Option String))
    (title : Option String) (children : List Html) : Html :=
  Html.element "html" [("lang", "en"), ("class", themeClass theme)]
    [documentHead theme title, documentBody ENV children]

/-- The static meta/link elements of the error document head
(lines 128-142; the description meta sits after the TileColor one in
this variant). -/
def errorHeadMeta : List Html :=
  [Html.element "meta" [("charSet", "utf-8")] [],
   Html.element "meta" [("name", "viewport"), ("content", "width=device-width,initial-scale=1")] [],
   Html.element "meta" [("name", "theme-color"), ("content", "#f59e0b")] [],
   Html.element "meta" [("name", "msapplication-TileColor"), ("content", "#f59e0b")] [],
   Html.element "meta" [("name", "description"), ("content", "A Remix demo app with Radix UI, headless UI and Tailwind CSS.")] [],
   Html.element "link" [("rel", "apple-touch-icon"), ("href", "/apple-touch-icon.png?v=10")] [],
   Html.element "link" [("rel", "icon"), ("href", "/favicon-96x96.png?v=10")] [],
   Html.element "link" [("rel", "icon"), ("href", "/favicon-48x48.png?v=10")] [],
   Html.element "link" [("rel", "icon"), ("href", "/favicon-32x32.png?v=10")] [],
   Html.element "link" [("rel", "icon"), ("href", "/favicon-16x16.png?v=10")] [],
   Html.element "link" [("rel", "icon"), ("href", "/favicon.ico?v=10")] [],
   Html.element "link" [("rel", "manifest"), ("href", "/manifest.webmanifest?v=10")] [],
   Html.element "link" [("rel", "mask-icon"), ("href", "/safari-pinned-tab.svg?v=10")] [],
   Html.element "link" [("rel", "icon"), ("href", "/favicon.ico?v=10")] []]

/-- The reduced `ErrorDocument` component (lines 124-155): fixed
`class="dark"` on the root element, no `NonFlashOfWrongThemeEls`, no
inline `window.ENV` script, no `ScrollRestoration` — but it does emit
the framework `Scripts` and `LiveReload` tags in its body. -/
def ErrorDocument (title : Option String) (children : List Html) : Html :=
  Html.element "html" [("lang", "en"), ("class", "dark")]
    [Html.element "head" []
      (errorHeadMeta ++ titleElems title ++
       [Html.element "Meta" [] [], Html.element "Links" [] []]),
     Html.element "body" [("class", "bg-white dark:bg-gray-900")]
      (children ++
       [Html.element "Scripts" [] [], Html.element "LiveReload" [] []])]

/-! ## Error and catch boundaries (`src/unnamed/part_000`, lines 171-218) -/

/-- A thrown JavaScript `Error`, as far as the boundary reads it. -/
structure JsError where
  message : String
  deriving DecidableEq, Repr

/-- The `ErrorBoundary` (lines 171-188): a total rendering function —
it logs the error and returns the reduced error document containing a
heading, the error's message, and the generic apology text. -/
def ErrorBoundary (error : JsError) : Html :=
  ErrorDocument (some "Error! - Infonomic Remix Workbench App")
    [Html.element "ErrorLayout" []
      [Html.element "div" []
        [Html.element "h1" [] [Html.text "There was an error"],
         Html.element "p" [] [Html.text error.message],
         Html.element "p" [] [Html.text "Oops. Something went wrong. We\x27re looking into it."]]]]

/-- A response caught by the `CatchBoundary`: status, status text, and
the optional string body (`caught.data`). -/
structure CaughtResponse where
  status : Nat
  statusText : String
  data : Option String
  deriving DecidableEq, Repr

/-- The outcome of the `CatchBoundary`: either a rendered document or a
re-thrown `Error` with the given message. -/
inductive CatchOutcome where
  | render (doc : Html)
  | raise (message : String)

/-- JavaScript `a || b` on an optional string: falls through to `b` on
`undefined`/`null` and on the empty string (both falsy). -/
def orElseText : Option String → String → String
  | some d, alt => if d = "" then alt else d
  | none, alt => alt

/-- The 401 message paragraph text (line 196). -/
def catchMessage401 : String :=
  "Oops! Looks like you tried to visit a page that you do not have access to."

/-- The 404 message paragraph text (line 199). -/
def catchMessage404 : String :=
  "Oops! Looks like you tried to visit a page that does not exist."

/-- The document the `CatchBoundary` renders for a handled status
(lines 206-217). -/
def catchRender (caught : CaughtResponse) (msg : String) : Html :=
  ErrorDocument (some (toString caught.status ++ " " ++ caught.statusText))
    [Html.element "ErrorLayout" []
      [Html.element "h1" []
        [Html.text (toString caught.status ++ ": " ++ caught.statusText)],
       Html.element "p" [] [Html.text msg]]]

/-- The `CatchBoundary` (lines 190-218): dispatches on the caught
status — 401 and 404 render their messages; every other status throws
`new Error(caught.data || caught.statusText)`. -/
def CatchBoundary (caught : CaughtResponse) : CatchOutcome :=
  if caught.status = 401 then CatchOutcome.render (catchRender caught catchMessage401)
  else if caught.status = 404 then CatchOutcome.render (catchRender caught catchMessage404)
  else CatchOutcome.raise (orElseText caught.data caught.statusText)

/-! ## The protected theme route loader (`app/routes/theme.tsx`) -/

/-- The `loader` of `app/routes/theme.tsx` (lines 29-32): awaits
`requireUserId(request)` — which throws a redirect-class result for an
unauthenticated session — and then returns `null` (embedded as
`none`). -/
def themeLoader (session : Session) : Except Redirection (Option Unit) :=
  match requireUserId session with
  | Except.error r => Except.error r
  | Except.ok _ => Except.ok none

/-! ## The notes-creation action (`app/routes/_app+/notes.new.tsx`) -/

/-- A submitted form body: ordered key/value entries, values being
strings or files as in `FormData`. -/
structure FormData where
  entries : List (String × FormValue)
  deriving DecidableEq, Repr

/-- `formData.get(key)` restricted to string values (schema fields are
strings; a missing key or a file value is not a valid field). -/
def getStr (fd : FormData) (k : String) : Option String :=
  match (fd.entries.find? (fun e => e.1 = k)).map Prod.snd with
  | some (FormValue.str s) => some s
  | _ => none

/-- The successfully parsed notes form. -/
structure ParsedNote where
  title : String
  body : String
  deriving DecidableEq, Repr

/-- A zod-style formatted error map (`parseResult.error.format()`):
message lists keyed by the form's field names. -/
structure FieldErrors where
  title : List String
  body : List String
  deriving DecidableEq, Repr

/-- Modelled from the spec: the notes validation schema (`schema` from
`~/modules/notes`, outside the excerpt).  `safeParse` accepts a
submission exactly when both `title` and `body` are present as
strings, and otherwise produces the structured error map keyed by the
missing field names. -/
def schemaSafeParse (fd : FormData) : Except FieldErrors ParsedNote :=
  match getStr fd "title", getStr fd "body" with
  | some t, some b => Except.ok ⟨t, b⟩
  | t?, b? =>
      Except.error
        { title := if t?.isNone then ["Title is required"] else []
          body := if b?.isNone then ["Body is required"] else [] }

/-- The input record of a `createNote` call. -/
structure NoteInput where
  title : String
  body : String
  userId : String
  deriving DecidableEq, Repr

/-- A persisted note, as far as the action reads it back. -/
structure Note where
  title : String
  body : String
  userId : String
  deriving DecidableEq, Repr

/-- Modelled from the spec: the persistence accessor contract
`createNote(\x7btitle, body, userId\x7d) -> Note` (external
collaborator `note.server`). -/
def createNote (input : NoteInput) : Note :=
  ⟨input.title, input.body, input.userId⟩

/-- The HTTP result of the notes action: either a `json(..., 400)`
response carrying the error map, or a `redirect(location)` response
with a `Set-Cookie` header. -/
inductive ActionResult where
  | jsonResponse (status : Nat) (errors : FieldErrors)
  | redirectResponse (location : String) (setCookie : String)
  deriving DecidableEq, Repr

/-- The `action` of `app/routes/_app+/notes.new.tsx` (lines 33-57) for
an authenticated request (`requireUserId` has resolved to `userId`,
`getSession` to `session`, `request.formData()` to `formData`).  The
second component of the result is the list of `createNote` calls the
run performed, recording the persistence side effect. -/
def action (userId : String) (session : Session) (formData : FormData) :
    ActionResult × List NoteInput :=
  match schemaSafeParse formData with
  | Except.error errs => (ActionResult.jsonResponse 400 errs, [])
  | Except.ok parsed =>
      let note := createNote ⟨parsed.title, parsed.body, userId⟩
      let session2 := session.flash "success"
        ("Note with title: \x27" ++ note.title ++ "\x27 was successfully created.")
      (ActionResult.redirectResponse "/notes" (commitSession session2),
       [⟨parsed.title, parsed.body, userId⟩])

end Remix

/-- Tag collection distributes over list append. -/
theorem Remix.Html.tagsList_append (l1 l2 : List Remix.Html) :
    Remix.Html.tagsList (l1 ++ l2) =
      Remix.Html.tagsList l1 ++ Remix.Html.tagsList l2 := by
  induction l1 with
  | nil => simp [Remix.Html.tagsList]
  | cons c cs ih => simp [Remix.Html.tagsList, ih]

/-- C1: a POST whose form body fails schema validation gets a
400-status `json` result carrying the parse's structured field-error
map, and no `createNote` call happens; in particular a submission
missing `title` or `body` fails validation. -/
theorem C1_action_validation_failure (userId : String) (session : Remix.Session)
    (fd : Remix.FormData) :
    (∀ errs, Remix.schemaSafeParse fd = Except.error errs →
      Remix.action userId session fd = (Remix.ActionResult.jsonResponse 400 errs, [])) ∧
    ((Remix.getStr fd "title" = none ∨ Remix.getStr fd "body" = none) →
      ∃ errs, Remix.schemaSafeParse fd = Except.error errs) := by
  constructor
  · intro errs h
    simp [Remix.action, h]
  · intro h
    cases ht : Remix.getStr fd "title" with
    | none =>
      cases hb : Remix.getStr fd "body" with
      | none =>
        exact ⟨⟨["Title is required"], ["Body is required"]⟩,
          by simp [Remix.schemaSafeParse, ht, hb]⟩
      | some b =>
        exact ⟨⟨["Title is required"], []⟩,
          by simp [Remix.schemaSafeParse, ht, hb]⟩
    | some t =>
      cases hb : Remix.getStr fd "body" with
      | none =>
        exact ⟨⟨[], ["Body is required"]⟩,
          by simp [Remix.schemaSafeParse, ht, hb]⟩
      | some b => simp_all

/-- C1 witness: a submission with a title but no body is rejected with
status 400, the error map blames `body`, and no note is created. -/
theorem C1_action_validation_failure_witness :
    Remix.action "user-1" ⟨some "user-1", none, []⟩
        ⟨[("title", Remix.FormValue.str "Hello")]⟩ =
      (Remix.ActionResult.jsonResponse 400 ⟨[], ["Body is required"]⟩, []) :=
  (C1_action_validation_failure "user-1" ⟨some "user-1", none, []⟩
      ⟨[("title", Remix.FormValue.str "Hello")]⟩).1
    ⟨[], ["Body is required"]⟩ (by rfl)

/-- C2: a POST whose form body passes schema validation performs
exactly one `createNote` call tagged with the authenticated user's id,
and responds with a redirect to `/notes` whose `Set-Cookie` header is
the committed session carrying the success flash message set after
validation. -/
theorem C2_action_success (userId : String) (session : Remix.Session)
    (fd : Remix.FormData) (parsed : Remix.ParsedNote)
    (h : Remix.schemaSafeParse fd = Except.ok parsed) :
    Remix.action userId session fd =
      (Remix.ActionResult.redirectResponse "/notes"
        (Remix.commitSession (session.flash "success"
          ("Note with title: \x27" ++ parsed.title ++ "\x27 was successfully created."))),
       [⟨parsed.title, parsed.body, userId⟩]) := by
  simp [Remix.action, h, Remix.createNote]

/-- C2 witness: a concrete valid submission creates exactly one note
for the authenticated user and redirects to `/notes` with the
committed flashed session as the cookie. -/
theorem C2_action_success_witness :
    Remix.action "user-1" ⟨some "user-1", none, []⟩
        ⟨[("title", Remix.FormValue.str "Hello"), ("body", Remix.FormValue.str "World")]⟩ =
      (Remix.ActionResult.redirectResponse "/notes"
        (Remix.commitSession
          ((⟨some "user-1", none, []⟩ : Remix.Session).flash "success"
            ("Note with title: \x27" ++ "Hello" ++ "\x27 was successfully created."))),
       [⟨"Hello", "World", "user-1"⟩]) :=
  C2_action_success "user-1" ⟨some "user-1", none, []⟩
    ⟨[("title", Remix.FormValue.str "Hello"), ("body", Remix.FormValue.str "World")]⟩
    ⟨"Hello", "World"⟩ (by rfl)

/-- C3 counterexample: at status 500 with a present-but-empty body the
boundary throws the status text, not the (present) body, because the
JavaScript `||` treats the empty string as absent — so the claim's
"body if present, otherwise status text" reading is false. -/
theorem C3_catchBoundary_counterexample :
    Remix.CatchBoundary ⟨500, "Internal Server Error", some ""⟩ ≠
      Remix.CatchOutcome.raise "" ∧
    Remix.CatchBoundary ⟨500, "Internal Server Error", some ""⟩ =
      Remix.CatchOutcome.raise "Internal Server Error" := by
  constructor
  · simp [Remix.CatchBoundary, Remix.orElseText]
  · rfl

/-- C3 (amended): caught status 401 renders the access-denied message,
404 renders the not-found message, and every other status throws an
error whose message is the caught body when present and non-empty,
otherwise the status text. -/
theorem C3_catchBoundary_amended (caught : Remix.CaughtResponse) :
    (caught.status = 401 →
      Remix.CatchBoundary caught =
        Remix.CatchOutcome.render (Remix.catchRender caught Remix.catchMessage401)) ∧
    (caught.status = 404 →
      Remix.CatchBoundary caught =
        Remix.CatchOutcome.render (Remix.catchRender caught Remix.catchMessage404)) ∧
    (caught.status ≠ 401 → caught.status ≠ 404 →
      Remix.CatchBoundary caught =
        Remix.CatchOutcome.raise (Remix.orElseText caught.data caught.statusText) ∧
      (∀ d, caught.data = some d → d ≠ "" →
        Remix.orElseText caught.data caught.statusText = d) ∧
      ((caught.data = none ∨ caught.data = some "") →
        Remix.orElseText caught.data caught.statusText = caught.statusText)) := by
  refine ⟨?_, ?_, ?_⟩
  · intro h
    simp [Remix.CatchBoundary, h]
  · intro h
    simp [Remix.CatchBoundary, h]
  · intro h1 h2
    refine ⟨by simp [Remix.CatchBoundary, h1, h2], ?_, ?_⟩
    · intro d hd hne
      rw [hd]
      simp [Remix.orElseText, hne]
    · intro hcase
      rcases hcase with hd | hd <;> rw [hd] <;> simp [Remix.orElseText]

/-- C3 witness: a caught 404 renders the not-found document, and a
caught 418 without a body is re-thrown with its status text. -/
theorem C3_catchBoundary_amended_witness :
    Remix.CatchBoundary ⟨404, "Not Found", none⟩ =
      Remix.CatchOutcome.render
        (Remix.catchRender ⟨404, "Not Found", none⟩ Remix.catchMessage404) ∧
    Remix.CatchBoundary ⟨418, "I am a teapot", none⟩ =
      Remix.CatchOutcome.raise (Remix.orElseText none "I am a teapot") := by
  constructor
  · exact (C3_catchBoundary_amended ⟨404, "Not Found", none⟩).2.1 rfl
  · exact ((C3_catchBoundary_amended ⟨418, "I am a teapot", none⟩).2.2
      (by decide) (by decide)).1

/-- C4: the protected theme route loader throws the redirect-class
result of `requireUserId` when the session has no user id, before any
further loader logic; with a user id present it returns `null`. -/
theorem C4_themeLoader_protected (session : Remix.Session) :
    (session.userId = none →
      Remix.themeLoader session = Except.error Remix.Redirection.toLogin) ∧
    (∀ uid, session.userId = some uid →
      Remix.themeLoader session = Except.ok none) := by
  constructor
  · intro h
    simp [Remix.themeLoader, Remix.requireUserId, h]
  · intro uid h
    simp [Remix.themeLoader, Remix.requireUserId, h]

/-- C4 witness: an anonymous session is redirected; an authenticated
one gets `null`. -/
theorem C4_themeLoader_protected_witness :
    Remix.themeLoader ⟨none, none, []⟩ = Except.error Remix.Redirection.toLogin ∧
    Remix.themeLoader ⟨some "user-1", none, []⟩ = Except.ok none := by
  constructor
  · exact (C4_themeLoader_protected ⟨none, none, []⟩).1 rfl
  · exact (C4_themeLoader_protected ⟨some "user-1", none, []⟩).2 "user-1" rfl

/-- C5: the `ErrorBoundary` is a total rendering function — for every
error it produces (exactly once, with no further throw) the reduced
error document, whose text nodes include both the generic
something-went-wrong message and the error's own message. -/
theorem C5_errorBoundary_renders (e : Remix.JsError) :
    e.message ∈ Remix.Html.texts (Remix.ErrorBoundary e) ∧
    "Oops. Something went wrong. We\x27re looking into it." ∈
      Remix.Html.texts (Remix.ErrorBoundary e) := by
  constructor <;>
    simp [Remix.ErrorBoundary, Remix.ErrorDocument, Remix.errorHeadMeta,
      Remix.titleElems, Remix.Html.texts, Remix.Html.textsList]

/-- C6 counterexample: the error document does NOT omit live-reload
wiring — its body emits the `LiveReload` tag. -/
theorem C6_errorDocument_counterexample :
    "LiveReload" ∈ Remix.Html.tags (Remix.ErrorDocument none []) := by
  simp [Remix.ErrorDocument, Remix.errorHeadMeta, Remix.titleElems,
    Remix.Html.tags, Remix.Html.tagsList]

/-- C6 (amended): every render of `ErrorDocument` carries the fixed
`dark` root class independent of any theme, omits the theme-dependent
`NonFlashOfWrongThemeEls` markup and the inline environment script —
but it does include the framework `Scripts` and `LiveReload` tags. -/
theorem C6_errorDocument_reduced (title : Option String) (children : List Remix.Html) :
    Remix.Html.attr (Remix.ErrorDocument title children) "class" = some "dark" ∧
    "NonFlashOfWrongThemeEls" ∉ Remix.Html.tags (Remix.ErrorDocument title []) ∧
    Remix.Html.inlineScripts (Remix.ErrorDocument title []) = [] ∧
    "Scripts" ∈ Remix.Html.tags (Remix.ErrorDocument title children) ∧
    "LiveReload" ∈ Remix.Html.tags (Remix.ErrorDocument title children) := by
  refine ⟨rfl, ?_, ?_, ?_, ?_⟩
  · cases title <;>
      simp [Remix.ErrorDocument, Remix.errorHeadMeta, Remix.titleElems,
        Remix.Html.tags, Remix.Html.tagsList]
  · cases title <;>
      simp [Remix.ErrorDocument, Remix.errorHeadMeta, Remix.titleElems,
        Remix.Html.inlineScripts, Remix.Html.inlineScriptsList]
  · cases title <;>
      simp [Remix.ErrorDocument, Remix.errorHeadMeta, Remix.titleElems,
        Remix.Html.tags, Remix.Html.tagsList, Remix.Html.tagsList_append]
  · cases title <;>
      simp [Remix.ErrorDocument, Remix.errorHeadMeta, Remix.titleElems,
        Remix.Html.tags, Remix.Html.tagsList, Remix.Html.tagsList_append]

/-- C7: with a dark session theme the main document's root `html`
element carries the `dark` class, determined server-side, and the
theme-determining `NonFlashOfWrongThemeEls` markup is emitted strictly
before any client script (`script`, `Scripts`, `LiveReload`). -/
theorem C7_document_dark_theme (ENV : List (String × Option String))
    (title : Option String) (children : List Remix.Html) :
    Remix.Html.attr (Remix.Document (some Remix.Theme.dark) ENV title children) "class" =
      some "dark" ∧
    ∃ pre post,
      Remix.Html.tags (Remix.Document (some Remix.Theme.dark) ENV title children) =
        pre ++ post ∧
      "NonFlashOfWrongThemeEls" ∈ pre ∧
      ∀ s ∈ pre, s ≠ "script" ∧ s ≠ "Scripts" ∧ s ≠ "LiveReload" := by
  constructor
  · rfl
  · refine ⟨"html" :: Remix.Html.tags (Remix.documentHead (some Remix.Theme.dark) title),
      Remix.Html.tags (Remix.documentBody ENV children), ?_, ?_, ?_⟩
    · simp [Remix.Document, Remix.Html.tags, Remix.Html.tagsList]
    · cases title <;>
        simp [Remix.documentHead, Remix.documentHeadMeta, Remix.titleElems,
          Remix.Html.tags, Remix.Html.tagsList, Remix.Html.tagsList_append]
    · cases title <;>
        (simp only [Remix.documentHead, Remix.documentHeadMeta, Remix.titleElems,
          Remix.Html.tags, Remix.Html.tagsList, Remix.Html.tagsList_append,
          List.append_nil, List.nil_append, List.cons_append] ; decide)

/-- C8: the `window.ENV` blob the main document injects is exactly the
serialized whitelist map built by the root loader — whose keys are
`RECAPTCHA_ENABLED` and `RECAPTCHA_SITE_KEY` and no others — and the
loader payload depends on the process environment only through those
two keys, so no other environment value reaches the client. -/
theorem C8_env_whitelist (env : String → Option String)
    (sessionTheme : Option Remix.Theme) (user : Option Remix.User)
    (title : Option String) :
    ((Remix.rootLoader env sessionTheme user).ENV.map Prod.fst =
      ["RECAPTCHA_ENABLED", "RECAPTCHA_SITE_KEY"]) ∧
    Remix.Html.inlineScripts
        (Remix.Document (Remix.rootLoader env sessionTheme user).theme
          (Remix.rootLoader env sessionTheme user).ENV title []) =
      ["window.ENV = " ++
        Remix.serializeEnv (Remix.rootLoader env sessionTheme user).ENV] ∧
    (∀ env2 : String → Option String,
      env2 "RECAPTCHA_ENABLED" = env "RECAPTCHA_ENABLED" →
      env2 "RECAPTCHA_SITE_KEY" = env "RECAPTCHA_SITE_KEY" →
      Remix.rootLoader env2 sessionTheme user = Remix.rootLoader env sessionTheme user) := by
  refine ⟨rfl, ?_, ?_⟩
  · cases title <;>
      simp [Remix.Document, Remix.documentHead, Remix.documentBody,
        Remix.documentHeadMeta, Remix.titleElems, Remix.rootLoader,
        Remix.Html.inlineScripts, Remix.Html.inlineScriptsList]
  · intro env2 h1 h2
    simp [Remix.rootLoader, h1, h2]

/-- C8 witness: an environment holding a secret under another key
produces the same loader payload as one holding nothing at all — the
secret does not reach the client-visible blob. -/
theorem C8_env_whitelist_witness :
    Remix.rootLoader (fun k => if k = "SESSION_SECRET" then some "s3cr3t" else none)
        none none =
      Remix.rootLoader (fun _ => none) none none :=
  (C8_env_whitelist (fun _ => none) none none none).2.2
    (fun k => if k = "SESSION_SECRET" then some "s3cr3t" else none) (by rfl) (by rfl)

/-- C9: `safeRedirect` returns the default whenever the input is
absent (`null`/`undefined`), a `File`, the empty string, a string not
starting with `/`, or a string starting with `//`; any other string is
returned unchanged; and whenever the default begins with a single `/`,
so does the result. -/
theorem C9_safeRedirect_spec (dest : Option Remix.FormValue) (d : String) :
    ((dest = none ∨ dest = some Remix.FormValue.file ∨ dest = some (Remix.FormValue.str "") ∨
       (∀ s, dest = some (Remix.FormValue.str s) →
         (Remix.sStarts s "/" = false ∨ Remix.sStarts s "//" = true))) →
      Remix.safeRedirect dest d = d) ∧
    (∀ s, dest = some (Remix.FormValue.str s) → s ≠ "" →
      Remix.sStarts s "/" = true → Remix.sStarts s "//" = false →
      Remix.safeRedirect dest d = s) ∧
    (Remix.sStarts d "/" = true → Remix.sStarts d "//" = false →
      Remix.sStarts (Remix.safeRedirect dest d) "/" = true ∧
        Remix.sStarts (Remix.safeRedirect dest d) "//" = false) := by
  refine ⟨?_, ?_, ?_⟩
  · rintro (rfl | rfl | rfl | h)
    · rfl
    · rfl
    · simp [Remix.safeRedirect]
    · cases dest with
      | none => rfl
      | some v =>
        cases v with
        | file => rfl
        | str s =>
          by_cases he : s = ""
          · simp [Remix.safeRedirect, he]
          · rcases h s rfl with hs | hs <;>
              simp [Remix.safeRedirect, he, hs]
  · rintro s rfl hne hstart hdouble
    simp [Remix.safeRedirect, hne, hstart, hdouble]
  · intro hd hdd
    cases dest with
    | none => exact ⟨hd, hdd⟩
    | some v =>
      cases v with
      | file => exact ⟨hd, hdd⟩
      | str s =>
        by_cases he : s = ""
        · simpa [Remix.safeRedirect, he] using ⟨hd, hdd⟩
        · cases h1 : Remix.sStarts s "/" with
          | false => simpa [Remix.safeRedirect, he, h1] using ⟨hd, hdd⟩
          | true =>
            cases h2 : Remix.sStarts s "//" with
            | true => simpa [Remix.safeRedirect, he, h1, h2] using ⟨hd, hdd⟩
            | false =>
              simp [Remix.safeRedirect, he, h1, h2]

/-- C9 witness: a concrete safe path is returned unchanged and a
protocol-relative path falls back to the default. -/
theorem C9_safeRedirect_spec_witness :
    Remix.safeRedirect (some (Remix.FormValue.str "/notes")) "/" = "/notes" ∧
    Remix.safeRedirect (some (Remix.FormValue.str "//evil.example")) "/" = "/" := by
  constructor
  · exact (C9_safeRedirect_spec (some (Remix.FormValue.str "/notes")) "/").2.1
      "/notes" rfl (by decide) (by decide) (by decide)
  · exact (C9_safeRedirect_spec (some (Remix.FormValue.str "//evil.example")) "/").1
      (Or.inr (Or.inr (Or.inr (by intro s hs; cases hs; right; decide))))

/-- C10: `isBusy` is not a total boolean: in the `loading` state with a
type other than `actionRedirect` / `actionReload` it returns `none`
(JavaScript `undefined`) rather than `some false`; and it returns
`some true` exactly when the state is `submitting`, or the state is
`loading` with type `actionRedirect` or `actionReload`. -/
theorem C10_isBusy_spec (t : Remix.Transition) :
    (t.state = Remix.TransitionState.loading →
      t.type ≠ "actionRedirect" → t.type ≠ "actionReload" →
      Remix.isBusy t = none ∧ Remix.isBusy t ≠ some false) ∧
    (Remix.isBusy t = some true ↔
      (t.state = Remix.TransitionState.submitting ∨
        (t.state = Remix.TransitionState.loading ∧
          (t.type = "actionRedirect" ∨ t.type = "actionReload")))) := by
  obtain ⟨s, ty⟩ := t
  constructor
  · rintro rfl h1 h2
    have hcond : ¬ (ty = "actionRedirect" ∨ ty = "actionReload") := by
      rintro (h | h)
      · exact h1 h
      · exact h2 h
    simp [Remix.isBusy, hcond]
  · cases s with
    | idle => simp [Remix.isBusy]
    | submitting => simp [Remix.isBusy]
    | loading =>
      by_cases hcond : ty = "actionRedirect" ∨ ty = "actionReload"
      · simp [Remix.isBusy, hcond]
      · simp [Remix.isBusy, hcond]

/-- C10 witness: a `loading` transition of type `normalLoad` yields
`undefined`, and a `submitting` transition yields `true`. -/
theorem C10_isBusy_spec_witness :
    Remix.isBusy ⟨Remix.TransitionState.loading, "normalLoad"⟩ = none ∧
    Remix.isBusy ⟨Remix.TransitionState.submitting, "actionSubmission"⟩ = some true := by
  constructor
  · exact ((C10_isBusy_spec ⟨Remix.TransitionState.loading, "normalLoad"⟩).1
      rfl (by decide) (by decide)).1
  · exact (C10_isBusy_spec ⟨Remix.TransitionState.submitting, "actionSubmission"⟩).2.mpr
      (Or.inl rfl)
